import Mathlib

/-!
Shallow embedding of the hardware-state synchronization subsystem of the
Div-Acer-Manager-Max daemon (src/Daemon/AcerSense-Daemon.py and
src/Daemon/PowerSourceDetection.py).

Virtual files (sysfs nodes, the durable restart counter) are modelled by an
explicit `FileState`: a file is absent, exists but raises on read, or holds a
string.  Python's `try/except` blocks are modelled by total functions that
return the value the corresponding `except` clause produces.  Side effects
(hardware writes, visual updates, optimization application, event
notification) are modelled as an explicit ordered list of `Action`s.
-/

namespace AcerSense

/-- State of one virtual file: missing, present but unreadable (an `open`
or `read` on it raises `IOError`), or present with string contents. -/
inductive FileState
  | absent
  | unreadable
  | content (s : String)
deriving DecidableEq

/-- A tiny filesystem: association list from path to file state.
Paths not listed are absent. -/
abbrev FS := List (String × FileState)

/-- Look a path up in the filesystem model. -/
def fsLookup (fs : FS) (p : String) : FileState :=
  match fs with
  | [] => .absent
  | (q, st) :: rest => if q = p then st else fsLookup rest p

/-- Model of `os.path.exists`. -/
def fsExists (fs : FS) (p : String) : Bool :=
  match fsLookup fs p with
  | .absent => false
  | _ => true

/-- Whitespace characters recognised by Python's `str.strip()` (ASCII part). -/
def isPySpace (c : Char) : Bool :=
  c = ' ' || c = '\t' || c = '\n' || c = '\x0d' || c = '\x0b' || c = '\x0c'

/-- Strip leading and trailing whitespace from a character list. -/
def stripList (l : List Char) : List Char :=
  ((l.dropWhile isPySpace).reverse.dropWhile isPySpace).reverse

/-- Model of Python's `str.strip()`. -/
def pyStrip (s : String) : String := ⟨stripList s.data⟩

/-- Accumulate decimal digits; any non-digit character makes parsing fail,
mirroring `int()` raising `ValueError`. -/
def digitsToNat : List Char → Nat → Option Nat
  | [], acc => some acc
  | c :: rest, acc =>
      if c.isDigit then digitsToNat rest (10 * acc + (c.toNat - 48)) else none

/-- Parse a non-empty all-digit character list. -/
def parseDigits : List Char → Option Nat
  | [] => none
  | l => digitsToNat l 0

/-- Parse an optional sign followed by digits. -/
def parseIntList : List Char → Option Int
  | [] => none
  | c :: rest =>
      if c = '-' then (parseDigits rest).map (fun n => -(n : Int))
      else if c = '+' then (parseDigits rest).map (fun n => (n : Int))
      else (parseDigits (c :: rest)).map (fun n => (n : Int))

/-- Model of Python's `int(s.strip())`: `none` when `int()` would raise
`ValueError`. -/
def parseIntPy (s : String) : Option Int := parseIntList (stripList s.data)

/-- `AcerSenseManager.MAX_RESTART_ATTEMPTS`. -/
def MAX_RESTART_ATTEMPTS : Int := 20

/-- `AcerSenseManager._get_restart_attempts`: read the durable counter file;
a missing file, an unreadable file (`IOError`) or unparsable contents
(`ValueError`) all fall through to `return 0`. -/
def getRestartAttempts (cf : FileState) : Int :=
  match cf with
  | .content s => (parseIntPy s).getD 0
  | _ => 0

/-- `AcerSenseManager._increment_restart_attempts`: read, add one, write the
decimal rendering back (the write is modelled as succeeding), and return the
new count. -/
def incrementRestartAttempts (cf : FileState) : Int × FileState :=
  let attempts := getRestartAttempts cf + 1
  (attempts, .content (toString attempts))

/-- `AcerSenseManager._reset_restart_attempts`: delete the counter file. -/
def resetRestartAttempts (_cf : FileState) : FileState := .absent

/-- Outcome of one detection-failure handling step: the boolean the step
reports, the new durable counter file, and whether the driver-reload
sequence was attempted at all. -/
structure RecoveryOutcome where
  result : Bool
  counter : FileState
  reloadAttempted : Bool
deriving DecidableEq

/-- Detection-failure handling from `AcerSenseManager.__init__` (the branch
taken when `_detect_laptop_type()` returns `UNKNOWN`): if the durable counter
is below `MAX_RESTART_ATTEMPTS` it is incremented and
`_restart_drivers_and_daemon()` is attempted, whose success is `reloadOk`;
at or above the cap nothing is done and the step reports failure. -/
def onDetectionFailure (cf : FileState) (reloadOk : Bool) : RecoveryOutcome :=
  if getRestartAttempts cf < MAX_RESTART_ATTEMPTS then
    let r := incrementRestartAttempts cf
    { result := reloadOk, counter := r.2, reloadAttempted := true }
  else
    { result := false, counter := cf, reloadAttempted := false }

/-- Counter evolution of one detection failure (the counter does not depend
on whether the reload sequence succeeded). -/
def stepCounter (cf : FileState) : FileState :=
  (onDetectionFailure cf false).counter

/-- Events emitted through `AcerSenseManager._notify_event`. -/
inductive Event
  | thermalProfileChanged (profile : String)
  | powerStateChanged (pluggedIn : Bool)
  | fanSpeedChanged (cpu gpu : String)
deriving DecidableEq

/-- Observable side effects of the manager, in program order: an actual
hardware write of the platform-profile file, `_update_hyprland_visuals`,
`_apply_profile_optimizations`, and `_notify_event`. -/
inductive Action
  | hwWrite (value : String)
  | visuals (profile : String)
  | optims (profile : String)
  | notify (e : Event)
deriving DecidableEq

/-- The manager state the profile claims touch: whether "thermal_profile" is
in `available_features`, the space-split contents of
`platform_profile_choices`, the current contents of the `platform_profile`
file, `self.last_known_profile`, the power-supply sysfs files consulted by
`_is_ac_online`, and the configured default profiles. -/
structure DaemonState where
  thermalAvail : Bool
  choices : List String
  profileFile : String
  lastKnownProfile : String
  powerFs : FS
  defaultAc : String
  defaultBat : String
deriving DecidableEq

/-- `AcerSenseManager.get_thermal_profile`: empty when the feature is
unsupported, otherwise the contents of `/sys/firmware/acpi/platform_profile`. -/
def getThermalProfile (st : DaemonState) : String :=
  if st.thermalAvail then st.profileFile else ""

/-- `AcerSenseManager.get_thermal_profile_choices`: empty when the feature is
unsupported, otherwise the space-split choices file. -/
def getThermalProfileChoices (st : DaemonState) : List String :=
  if st.thermalAvail then st.choices else []

/-- The fallback-mapping block of `AcerSenseManager.set_thermal_profile`:
a profile already in the choice set is kept; "balanced-performance" maps to
"performance" if present, else "balanced" if present; "quiet" maps to
"low-power" if present; anything else is left unchanged (and will fail the
final membership check). -/
def resolveProfile (profile : String) (choicesL : List String) : String :=
  if choicesL.contains profile then profile
  else if profile = "balanced-performance" then
    if choicesL.contains "performance" then "performance"
    else if choicesL.contains "balanced" then "balanced"
    else profile
  else if profile = "quiet" then
    if choicesL.contains "low-power" then "low-power"
    else profile
  else profile

/-- Result of a manager operation: the boolean it returns, the state after
it, and the ordered side effects it performed. -/
structure ApplyResult where
  success : Bool
  st : DaemonState
  acts : List Action
deriving DecidableEq

/-- `AcerSenseManager._write_file` on the platform-profile file: if the file
already holds the value, the write is elided and `True` is returned; else an
actual write happens, succeeding iff `writeOk` (the parameter models whether
the physical sysfs write raises). -/
def writeProfileFile (writeOk : Bool) (st : DaemonState) (value : String) :
    ApplyResult :=
  if st.profileFile = value then
    { success := true, st := st, acts := [] }
  else if writeOk then
    { success := true, st := { st with profileFile := value },
      acts := [.hwWrite value] }
  else
    { success := false, st := st, acts := [] }

/-- `AcerSenseManager.set_thermal_profile`: unsupported feature fails
immediately; the requested profile is validated against the live choice set
with the fallback mapping; the resolved value is written through
`_write_file`; on write success or `force` the manager updates
`last_known_profile`, re-applies visuals and optimizations, and emits
`thermal_profile_changed`; the write's success code is returned. -/
def setThermalProfile (writeOk : Bool) (st : DaemonState) (profile : String)
    (force : Bool) : ApplyResult :=
  if !st.thermalAvail then
    { success := false, st := st, acts := [] }
  else
    let p := resolveProfile profile (getThermalProfileChoices st)
    if !((getThermalProfileChoices st).contains p) then
      { success := false, st := st, acts := [] }
    else
      let w := writeProfileFile writeOk st p
      if w.success || force then
        { success := w.success,
          st := { w.st with lastKnownProfile := p },
          acts := w.acts ++
            [.visuals p, .optims p, .notify (.thermalProfileChanged p)] }
      else
        { success := w.success, st := w.st, acts := w.acts }

/-- Number of actual hardware writes in an action list. -/
def countHwWrites (acts : List Action) : Nat :=
  acts.countP (fun a => match a with | .hwWrite _ => true | _ => false)

/-- Number of `thermal_profile_changed` notifications in an action list. -/
def countThermalEvents (acts : List Action) : Nat :=
  acts.countP
    (fun a => match a with | .notify (.thermalProfileChanged _) => true | _ => false)

/-- The four candidate sysfs "online" paths consulted for AC detection. -/
def acCandidatePaths : List String :=
  ["/sys/class/power_supply/AC/online",
   "/sys/class/power_supply/ACAD/online",
   "/sys/class/power_supply/ADP1/online",
   "/sys/class/power_supply/AC0/online"]

/-- `AcerSenseManager._read_file`: stripped contents, or `""` when the open
or read raises (the `except` clause). -/
def readFileM (fs : FS) (p : String) : String :=
  match fsLookup fs p with
  | .content s => pyStrip s
  | _ => ""

/-- `AcerSenseManager._is_ac_online`: true iff some candidate path exists and
reads (stripped) as "1". -/
def isAcOnlineM (fs : FS) : Bool :=
  acCandidatePaths.any (fun p => fsExists fs p && (readFileM fs p == "1"))

/-- `AcerSenseManager.sync_full_state`: detect the power source, read the
CURRENT hardware profile (falling back to the per-power-source default only
when the read comes back empty), re-apply it with `force=True`, then
broadcast `power_state_changed` with the detected state. -/
def syncFullState (writeOk : Bool) (st : DaemonState) :
    DaemonState × List Action :=
  let isAc := isAcOnlineM st.powerFs
  let current := getThermalProfile st
  let current := if current = "" then
    (if isAc then st.defaultAc else st.defaultBat) else current
  let r := setThermalProfile writeOk st current true
  (r.st, r.acts ++ [.notify (.powerStateChanged isAc)])

/-- A message as seen on one client's connection: a pushed event or the
response to one of that client's commands. -/
inductive Msg
  | event (e : Event)
  | response (cmd : String)
deriving DecidableEq

/-- The notifications contained in an action list, in order. -/
def eventsOf (acts : List Action) : List Event :=
  acts.filterMap (fun a => match a with | .notify e => some e | _ => none)

/-- `DaemonServer.handle_client`: the accepted client is added to the
broadcast set, then `manager.sync_full_state()` runs to completion (its
notifications are broadcast, reaching the new client), and only then does the
per-connection read loop answer the client's commands one at a time in
arrival order.  The value is the ordered stream of messages the new client
receives during this exchange. -/
def handleClientTrace (writeOk : Bool) (st : DaemonState)
    (cmds : List String) : List Msg :=
  (eventsOf (syncFullState writeOk st).2).map Msg.event ++
    cmds.map Msg.response

/-- `DaemonServer.broadcast_event`: write the serialized event to every
client in the live set; a client whose write raises is recorded as stale and
discarded from the set after the loop; `writeOk c` models whether the write
to client `c` succeeds.  Returns the clients that received the event and the
live set after the cleanup. -/
def broadcastEvent (clients : List Nat) (writeOk : Nat → Bool) :
    List Nat × List Nat :=
  let stale := clients.filter (fun c => !(writeOk c))
  let delivered := clients.filter (fun c => writeOk c)
  let newClients := clients.filter (fun c => !(stale.contains c))
  (delivered, newClients)

/-- `AcerSenseManager.set_fan_speed`: `none` when the feature is missing
(returns `False`, nothing written); `(0, 0)` selects auto mode (the string
"0,0"); any other pair is clamped componentwise into [20, 100] before being
written as "cpu,gpu". -/
def setFanSpeedWrite (avail : Bool) (cpu gpu : Int) : Option (Int × Int) :=
  if !avail then none
  else if cpu = 0 ∧ gpu = 0 then some (0, 0)
  else some (max 20 (min 100 cpu), max 20 (min 100 gpu))

/-- The sysfs world `PowerSourceDetector._is_ac_connected` sees: the files,
and the directory listing of /sys/class/power_supply (`none` when the
directory itself is absent). -/
structure PowerFS where
  files : FS
  supplyDirListing : Option (List String)
deriving DecidableEq

/-- One probe of an "online" file inside `_is_ac_connected`'s `try` block:
`none` when the path does not exist (the loop moves on), `some false` when
the open/read raises (the outer `except` returns False), otherwise the
comparison of the stripped contents with "1". -/
def tryReadOnline (fs : FS) (p : String) : Option Bool :=
  match fsLookup fs p with
  | .absent => none
  | .unreadable => some false
  | .content s => some (pyStrip s == "1")

/-- The candidate-path loop of `_is_ac_connected`: it RETURNS on the first
existing path. -/
def tryCandidatePaths (fs : FS) : List String → Option Bool
  | [] => none
  | p :: rest =>
    match tryReadOnline fs p with
    | some b => some b
    | none => tryCandidatePaths fs rest

/-- Does a directory entry name start with "AC" or "ADP"
(`item.startswith`)? -/
def isSupplyEntry (item : String) : Bool :=
  "AC".data.isPrefixOf item.data || "ADP".data.isPrefixOf item.data

/-- The fallback scan of `_is_ac_connected`: first AC*/ADP* entry whose
"online" file exists decides the answer. -/
def scanSupplyDir (fs : FS) : List String → Option Bool
  | [] => none
  | item :: rest =>
    if isSupplyEntry item then
      match tryReadOnline fs ("/sys/class/power_supply/" ++ item ++ "/online") with
      | some b => some b
      | none => scanSupplyDir fs rest
    else scanSupplyDir fs rest

/-- `PowerSourceDetector._is_ac_connected`: try the four candidate paths,
then the directory scan, defaulting to False; every raised exception is
caught and also yields False, so the function is total. -/
def isAcConnected (pf : PowerFS) : Bool :=
  match tryCandidatePaths pf.files acCandidatePaths with
  | some b => b
  | none =>
    match pf.supplyDirListing with
    | none => false
    | some items =>
      match scanSupplyDir pf.files items with
      | some b => b
      | none => false

end AcerSense

namespace AcerSense

set_option maxRecDepth 4000

/-- C5: after 20 consecutive detection failures starting from an absent
counter the durable counter holds 20, so the 21st failure reports `false`,
attempts no driver reload, and leaves the counter untouched; below the cap
every failure increments the durable counter and attempts the reload. -/
theorem detection_failure_cap (reloadOk : Bool) :
    (onDetectionFailure (stepCounter^[20] FileState.absent) reloadOk).result = false ∧
    (onDetectionFailure (stepCounter^[20] FileState.absent) reloadOk).reloadAttempted = false ∧
    (onDetectionFailure (stepCounter^[20] FileState.absent) reloadOk).counter =
      stepCounter^[20] FileState.absent ∧
    ∀ cf, getRestartAttempts cf < MAX_RESTART_ATTEMPTS →
      (onDetectionFailure cf reloadOk).reloadAttempted = true ∧
      (onDetectionFailure cf reloadOk).counter =
        FileState.content (toString (getRestartAttempts cf + 1)) := by
  have h20 : stepCounter^[20] FileState.absent = FileState.content "20" := by decide
  have hge : ¬ (getRestartAttempts (FileState.content "20") < MAX_RESTART_ATTEMPTS) := by decide
  refine ⟨?_, ?_, ?_, ?_⟩
  · rw [h20]; simp [onDetectionFailure, hge]
  · rw [h20]; simp [onDetectionFailure, hge]
  · rw [h20]; simp [onDetectionFailure, hge]
  · intro cf hcf
    simp [onDetectionFailure, hcf, incrementRestartAttempts]

/-- Witness for C5 at concrete inputs: the 21st failure after 20 failures
from a fresh counter reports `false` without a reload attempt, and a failure
on a fresh counter attempts the reload and writes "1". -/
theorem detection_failure_cap_witness :
    (onDetectionFailure (stepCounter^[20] FileState.absent) true).result = false ∧
    (onDetectionFailure (stepCounter^[20] FileState.absent) true).reloadAttempted = false ∧
    (onDetectionFailure FileState.absent true).reloadAttempted = true ∧
    (onDetectionFailure FileState.absent true).counter = FileState.content "1" := by
  have h := detection_failure_cap true
  have h4 := h.2.2.2 FileState.absent (by decide)
  refine ⟨h.1, h.2.1, h4.1, ?_⟩
  rw [h4.2]
  decide

/-- C10: reading the durable restart-attempt counter yields 0 when the file
is absent, unreadable, or holds contents `int()` cannot parse; in the last
case the count is below the cap, so a corrupted file restores the full
restart budget. -/
theorem restart_counter_default (s : String) (hp : parseIntPy s = none) :
    getRestartAttempts FileState.absent = 0 ∧
    getRestartAttempts FileState.unreadable = 0 ∧
    getRestartAttempts (FileState.content s) = 0 ∧
    getRestartAttempts (FileState.content s) < MAX_RESTART_ATTEMPTS := by
  refine ⟨rfl, rfl, ?_, ?_⟩
  · simp [getRestartAttempts, hp]
  · simp [getRestartAttempts, hp, MAX_RESTART_ATTEMPTS]

/-- Witness for C10 on the concrete corrupted contents "garbage". -/
theorem restart_counter_default_witness :
    getRestartAttempts (FileState.content "garbage") = 0 ∧
    getRestartAttempts (FileState.content "garbage") < MAX_RESTART_ATTEMPTS := by
  have h := restart_counter_default "garbage" (by decide)
  exact ⟨h.2.2.1, h.2.2.2⟩

/-- Characterization of `set_thermal_profile` when the requested profile
resolves into the choice set: the write is elided when the file already holds
the resolved value; otherwise it happens and succeeds iff the physical write
does; `force` only rescues the side-effect block, never the success code. -/
theorem setProfile_resolved (writeOk : Bool) (st : DaemonState) (R : String)
    (force : Bool) (hav : st.thermalAvail = true)
    (hx : resolveProfile R st.choices ∈ st.choices) :
    setThermalProfile writeOk st R force =
      (if st.profileFile = resolveProfile R st.choices then
         { success := true,
           st := { st with lastKnownProfile := resolveProfile R st.choices },
           acts := [.visuals (resolveProfile R st.choices),
             .optims (resolveProfile R st.choices),
             .notify (.thermalProfileChanged (resolveProfile R st.choices))] }
       else if writeOk then
         { success := true,
           st := { st with
                     profileFile := resolveProfile R st.choices
                     lastKnownProfile := resolveProfile R st.choices },
           acts := [.hwWrite (resolveProfile R st.choices),
             .visuals (resolveProfile R st.choices),
             .optims (resolveProfile R st.choices),
             .notify (.thermalProfileChanged (resolveProfile R st.choices))] }
       else if force then
         { success := false,
           st := { st with lastKnownProfile := resolveProfile R st.choices },
           acts := [.visuals (resolveProfile R st.choices),
             .optims (resolveProfile R st.choices),
             .notify (.thermalProfileChanged (resolveProfile R st.choices))] }
       else { success := false, st := st, acts := [] }) := by
  have hch : getThermalProfileChoices st = st.choices := by
    simp [getThermalProfileChoices, hav]
  have hcx : st.choices.contains (resolveProfile R st.choices) = true := by
    simpa using hx
  simp only [setThermalProfile, hch, hav, hcx, writeProfileFile, Bool.not_true,
    Bool.false_eq_true, if_false]
  split_ifs <;> simp_all

/-- A profile present in the choice set resolves to itself. -/
theorem resolveProfile_mem (X : String) (l : List String) (hx : X ∈ l) :
    resolveProfile X l = X := by
  simp [resolveProfile, hx]

/-- C1: a requested profile that is not in the live choice set but whose
fallback mapping lands in the choice set is accepted: `set_thermal_profile`
succeeds (hardware write functioning) and the mapped profile becomes
`last_known_profile`. -/
theorem set_profile_fallback (st : DaemonState) (P : String)
    (hav : st.thermalAvail = true)
    (_hnm : st.choices.contains P = false)
    (hmap : st.choices.contains (resolveProfile P st.choices) = true) :
    (setThermalProfile true st P false).success = true ∧
    (setThermalProfile true st P false).st.lastKnownProfile =
      resolveProfile P st.choices := by
  rw [setProfile_resolved true st P false hav (by simpa using hmap)]
  split_ifs with h1 h2 h3 <;> simp_all

/-- Witness for C1: the spec's own example, choices = quiet, balanced,
performance; requesting "balanced-performance" succeeds and resolves to
"performance". -/
theorem set_profile_fallback_witness :
    (setThermalProfile true
      { thermalAvail := true, choices := ["quiet", "balanced", "performance"],
        profileFile := "balanced", lastKnownProfile := "balanced",
        powerFs := [], defaultAc := "performance", defaultBat := "quiet" }
      "balanced-performance" false).success = true ∧
    (setThermalProfile true
      { thermalAvail := true, choices := ["quiet", "balanced", "performance"],
        profileFile := "balanced", lastKnownProfile := "balanced",
        powerFs := [], defaultAc := "performance", defaultBat := "quiet" }
      "balanced-performance" false).st.lastKnownProfile = "performance" := by
  have h := set_profile_fallback
    { thermalAvail := true, choices := ["quiet", "balanced", "performance"],
      profileFile := "balanced", lastKnownProfile := "balanced",
      powerFs := [], defaultAc := "performance", defaultBat := "quiet" }
    "balanced-performance" (by decide) (by decide) (by decide)
  refine ⟨h.1, ?_⟩
  rw [h.2]
  decide

/-- C2: a requested profile neither in the live choice set nor resolvable by
the fallback mapping is rejected: `set_thermal_profile` returns false,
performs no side effect, and leaves the whole state (in particular
`last_known_profile`) unchanged. -/
theorem set_profile_unmapped (st : DaemonState) (P : String)
    (force writeOk : Bool)
    (_hn : st.choices.contains P = false)
    (hm : st.choices.contains (resolveProfile P st.choices) = false) :
    setThermalProfile writeOk st P force =
      { success := false, st := st, acts := [] } := by
  cases hav : st.thermalAvail with
  | false => simp [setThermalProfile, hav]
  | true =>
    have hch : getThermalProfileChoices st = st.choices := by
      simp [getThermalProfileChoices, hav]
    have hm' : resolveProfile P st.choices ∉ st.choices := by simpa using hm
    simp [setThermalProfile, hav, hch, hm']

/-- Witness for C2: requesting "turbo" with choices quiet, balanced,
performance fails and changes nothing. -/
theorem set_profile_unmapped_witness :
    setThermalProfile true
      { thermalAvail := true, choices := ["quiet", "balanced", "performance"],
        profileFile := "balanced", lastKnownProfile := "balanced",
        powerFs := [], defaultAc := "performance", defaultBat := "quiet" }
      "turbo" false =
      { success := false,
        st := { thermalAvail := true,
                choices := ["quiet", "balanced", "performance"],
                profileFile := "balanced", lastKnownProfile := "balanced",
                powerFs := [], defaultAc := "performance",
                defaultBat := "quiet" },
        acts := [] } :=
  set_profile_unmapped
    { thermalAvail := true, choices := ["quiet", "balanced", "performance"],
      profileFile := "balanced", lastKnownProfile := "balanced",
      powerFs := [], defaultAc := "performance", defaultBat := "quiet" }
    "turbo" false true (by decide) (by decide)

/-- Counterexample to C3 as stated: two consecutive
`set_thermal_profile("performance")` calls from profile "balanced" perform
exactly one hardware write but emit TWO `thermal_profile_changed` events,
because a successful (even elided) write always re-runs the side-effect
block. -/
theorem set_profile_two_events_counterexample :
    (setThermalProfile true
      { thermalAvail := true, choices := ["quiet", "balanced", "performance"],
        profileFile := "balanced", lastKnownProfile := "balanced",
        powerFs := [], defaultAc := "performance", defaultBat := "quiet" }
      "performance" false).success = true ∧
    (setThermalProfile true
      (setThermalProfile true
        { thermalAvail := true, choices := ["quiet", "balanced", "performance"],
          profileFile := "balanced", lastKnownProfile := "balanced",
          powerFs := [], defaultAc := "performance", defaultBat := "quiet" }
        "performance" false).st "performance" false).success = true ∧
    countHwWrites
      ((setThermalProfile true
        { thermalAvail := true, choices := ["quiet", "balanced", "performance"],
          profileFile := "balanced", lastKnownProfile := "balanced",
          powerFs := [], defaultAc := "performance", defaultBat := "quiet" }
        "performance" false).acts ++
       (setThermalProfile true
        (setThermalProfile true
          { thermalAvail := true, choices := ["quiet", "balanced", "performance"],
            profileFile := "balanced", lastKnownProfile := "balanced",
            powerFs := [], defaultAc := "performance", defaultBat := "quiet" }
          "performance" false).st "performance" false).acts) = 1 ∧
    ¬ (countThermalEvents
      ((setThermalProfile true
        { thermalAvail := true, choices := ["quiet", "balanced", "performance"],
          profileFile := "balanced", lastKnownProfile := "balanced",
          powerFs := [], defaultAc := "performance", defaultBat := "quiet" }
        "performance" false).acts ++
       (setThermalProfile true
        (setThermalProfile true
          { thermalAvail := true, choices := ["quiet", "balanced", "performance"],
            profileFile := "balanced", lastKnownProfile := "balanced",
            powerFs := [], defaultAc := "performance", defaultBat := "quiet" }
          "performance" false).st "performance" false).acts) ≤ 1) := by
  decide

/-- C3 amended: calling `set_thermal_profile(X)` twice in a row with the same
valid X and no force performs at most one hardware write in total and none on
the second call, the second call still returns success and leaves the state
unchanged, but every successful call re-runs the side-effect block, so TWO
`thermal_profile_changed` events are emitted, not at most one. -/
theorem set_profile_idempotent (st : DaemonState) (X : String)
    (hav : st.thermalAvail = true) (hx : st.choices.contains X = true) :
    countHwWrites ((setThermalProfile true st X false).acts ++
      (setThermalProfile true (setThermalProfile true st X false).st X
        false).acts) ≤ 1 ∧
    (setThermalProfile true (setThermalProfile true st X false).st X
      false).success = true ∧
    countHwWrites (setThermalProfile true (setThermalProfile true st X
      false).st X false).acts = 0 ∧
    (setThermalProfile true (setThermalProfile true st X false).st X
      false).st = (setThermalProfile true st X false).st ∧
    countThermalEvents ((setThermalProfile true st X false).acts ++
      (setThermalProfile true (setThermalProfile true st X false).st X
        false).acts) = 2 := by
  have hx' : X ∈ st.choices := by simpa using hx
  have hres : resolveProfile X st.choices = X := resolveProfile_mem X st.choices hx'
  have hmem : resolveProfile X st.choices ∈ st.choices := by rw [hres]; exact hx'
  by_cases hpf : st.profileFile = X
  · have e1 := setProfile_resolved true st X false hav hmem
    rw [hres, if_pos hpf] at e1
    have e2 := setProfile_resolved true { st with lastKnownProfile := X } X
      false hav hmem
    rw [show ({ st with lastKnownProfile := X } : DaemonState).choices =
      st.choices from rfl, hres,
      if_pos (show ({ st with lastKnownProfile := X } :
        DaemonState).profileFile = X from hpf)] at e2
    simp [e1, e2, countHwWrites, countThermalEvents]
  · have e1 := setProfile_resolved true st X false hav hmem
    rw [hres, if_neg hpf] at e1
    simp only [ite_true] at e1
    have e2 := setProfile_resolved true
      { st with profileFile := X, lastKnownProfile := X } X false hav hmem
    rw [show ({ st with profileFile := X, lastKnownProfile := X } :
      DaemonState).choices = st.choices from rfl, hres,
      if_pos (show ({ st with profileFile := X, lastKnownProfile := X } :
        DaemonState).profileFile = X from rfl)] at e2
    simp [e1, e2, countHwWrites, countThermalEvents]

/-- Witness for the amended C3 at a concrete state. -/
theorem set_profile_idempotent_witness :
    countHwWrites ((setThermalProfile true
      { thermalAvail := true, choices := ["balanced", "performance"],
        profileFile := "balanced", lastKnownProfile := "balanced",
        powerFs := [], defaultAc := "performance", defaultBat := "balanced" }
      "performance" false).acts ++
      (setThermalProfile true (setThermalProfile true
        { thermalAvail := true, choices := ["balanced", "performance"],
          profileFile := "balanced", lastKnownProfile := "balanced",
          powerFs := [], defaultAc := "performance", defaultBat := "balanced" }
        "performance" false).st "performance" false).acts) ≤ 1 ∧
    (setThermalProfile true (setThermalProfile true
      { thermalAvail := true, choices := ["balanced", "performance"],
        profileFile := "balanced", lastKnownProfile := "balanced",
        powerFs := [], defaultAc := "performance", defaultBat := "balanced" }
      "performance" false).st "performance" false).success = true :=
  have h := set_profile_idempotent
    { thermalAvail := true, choices := ["balanced", "performance"],
      profileFile := "balanced", lastKnownProfile := "balanced",
      powerFs := [], defaultAc := "performance", defaultBat := "balanced" }
    "performance" (by decide) (by decide)
  ⟨h.1, h.2.1⟩

/-- C4: with `force = true` and a valid requested profile,
`set_thermal_profile` always re-applies the visuals and optimization side
effects, always emits `thermal_profile_changed` (even when the hardware value
is unchanged or the write fails), updates `last_known_profile`, and returns
exactly the write's success code. -/
theorem set_profile_force (st : DaemonState) (P : String) (writeOk : Bool)
    (hav : st.thermalAvail = true) (hp : st.choices.contains P = true) :
    Action.visuals P ∈ (setThermalProfile writeOk st P true).acts ∧
    Action.optims P ∈ (setThermalProfile writeOk st P true).acts ∧
    Action.notify (Event.thermalProfileChanged P) ∈
      (setThermalProfile writeOk st P true).acts ∧
    (setThermalProfile writeOk st P true).success =
      (writeProfileFile writeOk st P).success ∧
    (setThermalProfile writeOk st P true).st.lastKnownProfile = P := by
  have hp' : P ∈ st.choices := by simpa using hp
  have hres : resolveProfile P st.choices = P := resolveProfile_mem P st.choices hp'
  have hmem : resolveProfile P st.choices ∈ st.choices := by rw [hres]; exact hp'
  have e := setProfile_resolved writeOk st P true hav hmem
  rw [hres] at e
  rw [e]
  by_cases h1 : st.profileFile = P
  · simp [writeProfileFile, h1]
  · by_cases h2 : writeOk
    · simp [writeProfileFile, h1, h2]
    · simp [writeProfileFile, h1, h2]

/-- Witness for C4: an unchanged profile value with a failing physical write
still re-applies side effects and emits the event, returning the elided
write's success. -/
theorem set_profile_force_witness :
    Action.visuals "balanced" ∈ (setThermalProfile false
      { thermalAvail := true, choices := ["balanced", "performance"],
        profileFile := "balanced", lastKnownProfile := "balanced",
        powerFs := [], defaultAc := "performance", defaultBat := "balanced" }
      "balanced" true).acts ∧
    Action.notify (Event.thermalProfileChanged "balanced") ∈
      (setThermalProfile false
      { thermalAvail := true, choices := ["balanced", "performance"],
        profileFile := "balanced", lastKnownProfile := "balanced",
        powerFs := [], defaultAc := "performance", defaultBat := "balanced" }
      "balanced" true).acts :=
  have h := set_profile_force
    { thermalAvail := true, choices := ["balanced", "performance"],
      profileFile := "balanced", lastKnownProfile := "balanced",
      powerFs := [], defaultAc := "performance", defaultBat := "balanced" }
    "balanced" false (by decide) (by decide)
  ⟨h.1, h.2.2.1⟩

/-- C6: when exactly one client K fails during a broadcast, every other
client receives the event, K does not, and the post-broadcast live set drops
exactly K: the other clients all survive. -/
theorem broadcast_drops_only_failed (clients : List Nat) (k : Nat)
    (w : Nat → Bool) (hk : k ∈ clients)
    (hw : ∀ c ∈ clients, (w c = false ↔ c = k)) :
    (∀ c ∈ clients, c ≠ k → c ∈ (broadcastEvent clients w).1) ∧
    k ∉ (broadcastEvent clients w).1 ∧
    (∀ c ∈ clients, c ≠ k → c ∈ (broadcastEvent clients w).2) ∧
    k ∉ (broadcastEvent clients w).2 := by
  have hwk : w k = false := (hw k hk).mpr rfl
  have hwc : ∀ c ∈ clients, c ≠ k → w c = true := by
    intro c hc hck
    cases hwcv : w c with
    | false => exact absurd ((hw c hc).mp hwcv) hck
    | true => rfl
  have hstale : ∀ c, c ∈ clients.filter (fun c => !(w c)) ↔
      (c ∈ clients ∧ c = k) := by
    intro c
    constructor
    · intro hmem
      have h1 := List.mem_filter.mp hmem
      refine ⟨h1.1, ?_⟩
      have h2 : w c = false := by
        have := h1.2
        cases hv : w c
        · rfl
        · rw [hv] at this; exact absurd this (by decide)
      exact (hw c h1.1).mp h2
    · rintro ⟨hc, rfl⟩
      exact List.mem_filter.mpr ⟨hc, by simp [hwk]⟩
  refine ⟨?_, ?_, ?_, ?_⟩
  · intro c hc hck
    exact List.mem_filter.mpr ⟨hc, hwc c hc hck⟩
  · intro hmem
    have := (List.mem_filter.mp hmem).2
    rw [hwk] at this
    exact absurd this (by decide)
  · intro c hc hck
    refine List.mem_filter.mpr ⟨hc, ?_⟩
    have hnc : (clients.filter (fun c => !(w c))).contains c = false := by
      cases hv : (clients.filter (fun c => !(w c))).contains c
      · rfl
      · exfalso
        have hmem : c ∈ clients.filter (fun c => !(w c)) := by simpa using hv
        exact hck ((hstale c).mp hmem).2
    simp only [hnc, Bool.not_false]
  · intro hmem
    have h2 := (List.mem_filter.mp hmem).2
    have hkstale : k ∈ clients.filter (fun c => !(w c)) :=
      (hstale k).mpr ⟨hk, rfl⟩
    have : (clients.filter (fun c => !(w c))).contains k = true := by
      simpa using hkstale
    rw [this] at h2
    exact absurd h2 (by decide)

/-- Witness for C6: clients 1, 2, 3 with client 2 failing: 1 and 3 receive
the event and stay; 2 receives nothing and is dropped. -/
theorem broadcast_drops_only_failed_witness :
    (1 ∈ (broadcastEvent [1, 2, 3] (fun c => !(c == 2))).1 ∧
     3 ∈ (broadcastEvent [1, 2, 3] (fun c => !(c == 2))).1) ∧
    2 ∉ (broadcastEvent [1, 2, 3] (fun c => !(c == 2))).1 ∧
    (1 ∈ (broadcastEvent [1, 2, 3] (fun c => !(c == 2))).2 ∧
     3 ∈ (broadcastEvent [1, 2, 3] (fun c => !(c == 2))).2) ∧
    2 ∉ (broadcastEvent [1, 2, 3] (fun c => !(c == 2))).2 :=
  have h := broadcast_drops_only_failed [1, 2, 3] 2 (fun c => !(c == 2))
    (by decide) (by decide)
  ⟨⟨h.1 1 (by decide) (by decide), h.1 3 (by decide) (by decide)⟩,
   h.2.1,
   ⟨h.2.2.1 1 (by decide) (by decide), h.2.2.1 3 (by decide) (by decide)⟩,
   h.2.2.2⟩

/-- C9: with the fan-speed feature available, `set_fan_speed(0, 0)` writes
the auto pair (0, 0); any other request is clamped componentwise into
[20, 100]; hence each written component lies in {0} ∪ [20, 100] and a value
strictly between 0 and 20 is never written. -/
theorem set_fan_speed_range (avail : Bool) (cpu gpu : Int)
    (h : avail = true) :
    ∃ p : Int × Int, setFanSpeedWrite avail cpu gpu = some p ∧
      ((cpu = 0 ∧ gpu = 0) → p = (0, 0)) ∧
      (¬ (cpu = 0 ∧ gpu = 0) →
        20 ≤ p.1 ∧ p.1 ≤ 100 ∧ 20 ≤ p.2 ∧ p.2 ≤ 100) ∧
      ¬ (0 < p.1 ∧ p.1 < 20) ∧ ¬ (0 < p.2 ∧ p.2 < 20) := by
  subst h
  by_cases hz : cpu = 0 ∧ gpu = 0
  · refine ⟨(0, 0), by simp [setFanSpeedWrite, hz], fun _ => rfl,
      fun hc => absurd hz hc, ?_, ?_⟩ <;> norm_num
  · refine ⟨(max 20 (min 100 cpu), max 20 (min 100 gpu)), ?_, ?_, ?_, ?_, ?_⟩
    · simp [setFanSpeedWrite, hz]
    · intro hc; exact absurd hc hz
    · intro _
      refine ⟨le_max_left _ _, ?_, le_max_left _ _, ?_⟩ <;> omega
    · simp only [not_and, not_lt]
      intro h1
      have := le_max_left (20 : Int) (min 100 cpu)
      omega
    · simp only [not_and, not_lt]
      intro h1
      have := le_max_left (20 : Int) (min 100 gpu)
      omega

/-- Witness for C9: requests (0,0) and (5,250) with the feature available:
auto mode for the first, clamping to (20,100) for the second. -/
theorem set_fan_speed_range_witness :
    setFanSpeedWrite true 0 0 = some (0, 0) ∧
    ∃ p : Int × Int, setFanSpeedWrite true 5 250 = some p ∧
      20 ≤ p.1 ∧ p.1 ≤ 100 ∧ 20 ≤ p.2 ∧ p.2 ≤ 100 := by
  obtain ⟨p1, he1, hz1, -, -, -⟩ := set_fan_speed_range true 0 0 rfl
  obtain ⟨p2, he2, -, hc2, -, -⟩ := set_fan_speed_range true 5 250 rfl
  refine ⟨?_, p2, he2, ?_⟩
  · rw [he1, hz1 ⟨rfl, rfl⟩]
  · exact hc2 (by norm_num)

/-- The candidate loop falls through when every candidate path is absent. -/
theorem tryCandidatePaths_absent (fs : FS) :
    ∀ l : List String, (∀ p ∈ l, fsLookup fs p = FileState.absent) →
      tryCandidatePaths fs l = none := by
  intro l
  induction l with
  | nil => intro _; rfl
  | cons p rest ih =>
    intro h
    have hp := h p (List.mem_cons_self p rest)
    simp only [tryCandidatePaths, tryReadOnline, hp]
    exact ih (fun q hq => h q (List.mem_cons_of_mem p hq))

/-- The candidate loop returns False when every candidate is absent or
unreadable and at least one is unreadable: the first existing candidate is
then unreadable, so the read raises and the `except` yields False. -/
theorem tryCandidatePaths_unreadable (fs : FS) :
    ∀ l : List String,
      (∀ p ∈ l, fsLookup fs p = FileState.absent ∨
        fsLookup fs p = FileState.unreadable) →
      (∃ p ∈ l, fsLookup fs p = FileState.unreadable) →
      tryCandidatePaths fs l = some false := by
  intro l
  induction l with
  | nil => rintro _ ⟨p, hp, _⟩; exact absurd hp (List.not_mem_nil p)
  | cons p rest ih =>
    rintro h ⟨q, hq, hqu⟩
    cases hp : fsLookup fs p with
    | absent =>
      simp only [tryCandidatePaths, tryReadOnline, hp]
      refine ih (fun r hr => h r (List.mem_cons_of_mem p hr)) ⟨q, ?_, hqu⟩
      cases List.mem_cons.mp hq with
      | inl he => exact absurd hp (by rw [he] at hqu; rw [hqu]; decide)
      | inr hm => exact hm
    | unreadable => simp [tryCandidatePaths, tryReadOnline, hp]
    | content s =>
      have := h p (List.mem_cons_self p rest)
      rw [hp] at this
      rcases this with h1 | h1 <;> simp at h1

/-- The fallback directory scan falls through when no AC*/ADP* entry has an
existing "online" file. -/
theorem scanSupplyDir_none (fs : FS) :
    ∀ items : List String,
      (∀ item ∈ items, isSupplyEntry item = true →
        fsLookup fs ("/sys/class/power_supply/" ++ item ++ "/online") =
          FileState.absent) →
      scanSupplyDir fs items = none := by
  intro items
  induction items with
  | nil => intro _; rfl
  | cons item rest ih =>
    intro h
    by_cases hi : isSupplyEntry item = true
    · have := h item (List.mem_cons_self item rest) hi
      simp only [scanSupplyDir, hi, if_true, tryReadOnline, this]
      exact ih (fun q hq hqe => h q (List.mem_cons_of_mem item hq) hqe)
    · simp only [scanSupplyDir, hi, if_false]
      exact ih (fun q hq hqe => h q (List.mem_cons_of_mem item hq) hqe)

/-- Counterexample to C8 as stated: with none of the four candidate "online"
files present but a supply device "AC1" (found by the fallback directory
scan) reporting online, `_is_ac_connected` returns OnAC, not OnBattery. -/
theorem ac_detect_scan_counterexample :
    (∀ p ∈ acCandidatePaths,
      fsLookup [("/sys/class/power_supply/AC1/online", FileState.content "1")]
        p = FileState.absent) ∧
    isAcConnected
      { files := [("/sys/class/power_supply/AC1/online",
          FileState.content "1")],
        supplyDirListing := some ["AC1"] } = true := by
  decide

/-- C8 amended: the detector returns OnBattery when none of the candidate
files exists AND the fallback scan of /sys/class/power_supply finds no
AC*/ADP* entry with an existing "online" file; when every candidate is
absent or unreadable (and some read would fail) the caught exception also
yields OnBattery; the manager's `_is_ac_online` likewise reports OnBattery
when every candidate is absent or unreadable.  All of these functions are
total, so no call raises. -/
theorem ac_detect_defaults :
    (∀ pf : PowerFS,
      (∀ p ∈ acCandidatePaths, fsLookup pf.files p = FileState.absent) →
      (∀ items, pf.supplyDirListing = some items →
        ∀ item ∈ items, isSupplyEntry item = true →
          fsLookup pf.files
            ("/sys/class/power_supply/" ++ item ++ "/online") =
            FileState.absent) →
      isAcConnected pf = false) ∧
    (∀ pf : PowerFS,
      (∀ p ∈ acCandidatePaths, fsLookup pf.files p = FileState.absent ∨
        fsLookup pf.files p = FileState.unreadable) →
      (∃ p ∈ acCandidatePaths, fsLookup pf.files p = FileState.unreadable) →
      isAcConnected pf = false) ∧
    (∀ fs : FS,
      (∀ p ∈ acCandidatePaths, fsLookup fs p = FileState.absent ∨
        fsLookup fs p = FileState.unreadable) →
      isAcOnlineM fs = false) := by
  refine ⟨?_, ?_, ?_⟩
  · intro pf hcand hscan
    have h1 := tryCandidatePaths_absent pf.files acCandidatePaths hcand
    simp only [isAcConnected, h1]
    cases hd : pf.supplyDirListing with
    | none => rfl
    | some items =>
      have h2 := scanSupplyDir_none pf.files items (hscan items hd)
      simp only [h2]
  · intro pf hcand hex
    have h1 := tryCandidatePaths_unreadable pf.files acCandidatePaths hcand hex
    simp only [isAcConnected, h1]
  · intro fs hcand
    cases hv : isAcOnlineM fs with
    | false => rfl
    | true =>
      exfalso
      obtain ⟨p, hp, hcond⟩ := List.any_eq_true.mp hv
      rcases hcand p hp with h1 | h1 <;>
        simp [fsExists, readFileM, h1] at hcond

/-- Witness for the amended C8 at concrete filesystems: empty sysfs, and a
sysfs whose only candidate raises on read. -/
theorem ac_detect_defaults_witness :
    isAcConnected { files := [], supplyDirListing := none } = false ∧
    isAcConnected
      { files := [("/sys/class/power_supply/AC/online",
          FileState.unreadable)],
        supplyDirListing := none } = false ∧
    isAcOnlineM [("/sys/class/power_supply/AC/online",
      FileState.unreadable)] = false := by
  have h := ac_detect_defaults
  refine ⟨?_, ?_, ?_⟩
  · exact h.1 { files := [], supplyDirListing := none } (by decide)
      (by intro items hitems; exact Option.noConfusion hitems)
  · exact h.2.1
      { files := [("/sys/class/power_supply/AC/online",
          FileState.unreadable)], supplyDirListing := none }
      (by decide) (by decide)
  · exact h.2.2 [("/sys/class/power_supply/AC/online",
      FileState.unreadable)] (by decide)

/-- C7: a newly accepted client triggers `sync_full_state` before any of its
commands is answered: its message stream carries a `power_state_changed`
event with the freshly derived power state at a position strictly before
every command response; the sync re-applies the CURRENT hardware profile
(force), visible as a `thermal_profile_changed` event for it, and the
manager's `last_known_profile` afterwards equals that current profile. -/
theorem new_client_sync (writeOk : Bool) (st : DaemonState)
    (cmds : List String) (hav : st.thermalAvail = true)
    (hne : ¬ st.profileFile = "")
    (hp : st.choices.contains st.profileFile = true) :
    ∃ i, (handleClientTrace writeOk st cmds).get? i =
        some (Msg.event (Event.powerStateChanged (isAcOnlineM st.powerFs))) ∧
      (∀ j c, (handleClientTrace writeOk st cmds).get? j =
        some (Msg.response c) → i < j) ∧
      Msg.event (Event.thermalProfileChanged st.profileFile) ∈
        handleClientTrace writeOk st cmds ∧
      (syncFullState writeOk st).1.lastKnownProfile = st.profileFile := by
  have hp' : st.profileFile ∈ st.choices := by simpa using hp
  have hres : resolveProfile st.profileFile st.choices = st.profileFile :=
    resolveProfile_mem st.profileFile st.choices hp'
  have hmem : resolveProfile st.profileFile st.choices ∈ st.choices := by
    rw [hres]; exact hp'
  have e := setProfile_resolved writeOk st st.profileFile true hav hmem
  rw [hres, if_pos rfl] at e
  have hsync : syncFullState writeOk st =
      ({ st with lastKnownProfile := st.profileFile },
       [.visuals st.profileFile, .optims st.profileFile,
        .notify (.thermalProfileChanged st.profileFile),
        .notify (.powerStateChanged (isAcOnlineM st.powerFs))]) := by
    simp [syncFullState, getThermalProfile, hav, hne, e]
  have htr : handleClientTrace writeOk st cmds =
      Msg.event (Event.thermalProfileChanged st.profileFile) ::
      Msg.event (Event.powerStateChanged (isAcOnlineM st.powerFs)) ::
      cmds.map Msg.response := by
    simp [handleClientTrace, hsync, eventsOf]
  refine ⟨1, ?_, ?_, ?_, ?_⟩
  · rw [htr]; rfl
  · intro j c hj
    rw [htr] at hj
    match j with
    | 0 => simp at hj
    | 1 => simp at hj
    | Nat.succ (Nat.succ n) => omega
  · rw [htr]; simp
  · rw [hsync]

/-- Witness for C7 at a concrete state and command list: the power event (AC
online) precedes the lone command response, and the current profile
"performance" is what gets re-applied. -/
theorem new_client_sync_witness :
    ∃ i, (handleClientTrace true
      { thermalAvail := true, choices := ["balanced", "performance"],
        profileFile := "performance", lastKnownProfile := "performance",
        powerFs := [("/sys/class/power_supply/AC/online",
          FileState.content "1")],
        defaultAc := "performance", defaultBat := "balanced" }
      ["get_all_settings"]).get? i =
        some (Msg.event (Event.powerStateChanged (isAcOnlineM
          [("/sys/class/power_supply/AC/online", FileState.content "1")]))) ∧
      (∀ j c, (handleClientTrace true
        { thermalAvail := true, choices := ["balanced", "performance"],
          profileFile := "performance", lastKnownProfile := "performance",
          powerFs := [("/sys/class/power_supply/AC/online",
            FileState.content "1")],
          defaultAc := "performance", defaultBat := "balanced" }
        ["get_all_settings"]).get? j = some (Msg.response c) → i < j) ∧
      Msg.event (Event.thermalProfileChanged "performance") ∈
        handleClientTrace true
          { thermalAvail := true, choices := ["balanced", "performance"],
            profileFile := "performance", lastKnownProfile := "performance",
            powerFs := [("/sys/class/power_supply/AC/online",
              FileState.content "1")],
            defaultAc := "performance", defaultBat := "balanced" }
          ["get_all_settings"] ∧
      (syncFullState true
        { thermalAvail := true, choices := ["balanced", "performance"],
          profileFile := "performance", lastKnownProfile := "performance",
          powerFs := [("/sys/class/power_supply/AC/online",
            FileState.content "1")],
          defaultAc := "performance", defaultBat := "balanced" }
        ).1.lastKnownProfile = "performance" :=
  new_client_sync true
    { thermalAvail := true, choices := ["balanced", "performance"],
      profileFile := "performance", lastKnownProfile := "performance",
      powerFs := [("/sys/class/power_supply/AC/online",
        FileState.content "1")],
      defaultAc := "performance", defaultBat := "balanced" }
    ["get_all_settings"] (by decide) (by decide) (by decide)

end AcerSense
